import Mathlib

/-!
Shallow embedding of the `use-mouse-delta` React hook (src/index.ts).

The hook is a single pointer-delta state machine: it subscribes to
press / move / release events (mouse and/or touch, depending on the
`mode` argument), stores the press-origin coordinates (`lastX`/`lastY`),
recomputes the displacement (`deltaX`/`deltaY`) from the origin on every
move, keeps tri-state trend flags (`goingDown`/`goingRight`), and resets
the displacement and the trend flags on release.

State fields mirror the `useState` hooks of `useMouseDelta`; the three
event handlers `onMouseDown`, `onMouseMove`, `onMouseUp` mirror the
closures of the same names; `getX`/`getY` mirror the coordinate
extractors.  JavaScript numbers are modelled as `Int` (all the spec
scenarios are integral); a handler that would throw (empty touch lists
on both sides) is modelled as returning `none`.
-/

namespace UseMouseDelta

/-- One entry of a touch list, carrying viewport coordinates
(`Touch.clientX` / `Touch.clientY` in the DOM). -/
structure Touch where
  clientX : Int
  clientY : Int
  deriving Repr, DecidableEq

/-- Payload of an input event: a mouse event carries absolute viewport
coordinates (`e.x` / `e.y`), a touch event carries the active-touches
list (`e.touches`) and the changed-touches list (`e.changedTouches`). -/
inductive Pointer where
  | mouse (x y : Int)
  | touch (touches changedTouches : List Touch)
  deriving Repr, DecidableEq

/-- Event class: press (`mousedown`/`touchstart`), move
(`mousemove`/`touchmove`) or release (`mouseup`/`touchend`). -/
inductive EventKind where
  | down
  | move
  | up
  deriving Repr, DecidableEq

/-- An input event: its class, its pointer payload and the class name of
its target element (`e.target.className`). -/
structure Event where
  kind : EventKind
  pointer : Pointer
  targetClassName : String
  deriving Repr, DecidableEq

/-- Embeds `getY` of src/index.ts: for a touch event take the first
entry of `touches`, falling back to the first entry of `changedTouches`
(`event.touches[0] || event.changedTouches[0]`), and read its `clientY`;
for a mouse event return `event.y`.  `none` models the TypeError raised
when both lists are empty. -/
def getY (p : Pointer) : Option Int :=
  match p with
  | .touch touches changedTouches =>
      (touches.head?.orElse (fun _ => changedTouches.head?)).map
        (fun t => t.clientY)
  | .mouse _ y => some y

/-- Embeds `getX` of src/index.ts, symmetric to `getY` with `clientX`
and `event.x`. -/
def getX (p : Pointer) : Option Int :=
  match p with
  | .touch touches changedTouches =>
      (touches.head?.orElse (fun _ => changedTouches.head?)).map
        (fun t => t.clientX)
  | .mouse x _ => some x

/-- The tracked state: one field per `useState` hook of `useMouseDelta`.
`lastX`/`lastY` are the press-origin coordinates; `goingDown`,
`goingRight` and `touchedElement` use `Option` for the `null` initial
values. -/
structure TrackState where
  lastY : Int
  lastX : Int
  deltaY : Int
  deltaX : Int
  goingDown : Option Bool
  goingRight : Option Bool
  isMouseDown : Bool
  touchedElement : Option String
  deriving Repr, DecidableEq

/-- The initial state of the hook: all numeric fields `0`, flags
`false`, tri-state fields `null`. -/
def initState : TrackState :=
  { lastY := 0, lastX := 0, deltaY := 0, deltaX := 0,
    goingDown := none, goingRight := none,
    isMouseDown := false, touchedElement := none }

/-- The `mode` argument of `useMouseDelta`. -/
inductive Mode where
  | touch
  | mouse
  | both
  deriving Repr, DecidableEq

/-- Embeds `isMobile = mode === 'touch' || mode === 'both'`. -/
def isMobile (m : Mode) : Bool :=
  m == Mode.touch || m == Mode.both

/-- Embeds `isDesktop = mode === 'mouse' || mode === 'both'`. -/
def isDesktop (m : Mode) : Bool :=
  m == Mode.mouse || m == Mode.both

/-- Whether an event is a touch-class event
(`e.type.includes('touch')`). -/
def isTouchEvent (p : Pointer) : Bool :=
  match p with
  | .touch _ _ => true
  | .mouse _ _ => false

/-- Embeds the `onMouseDown` handler: set `isMouseDown` to `true`,
record the press origin in `lastY`/`lastX` and the target class name in
`touchedElement`.  Nothing else is written: `deltaX`, `deltaY`,
`goingDown`, `goingRight` keep their previous values. -/
def onMouseDown (s : TrackState) (e : Event) : Option TrackState :=
  match getY e.pointer, getX e.pointer with
  | some y, some x =>
      some { s with isMouseDown := true, lastY := y, lastX := x,
                    touchedElement := some e.targetClassName }
  | _, _ => none

/-- Embeds the `onMouseMove` handler: guarded by `if (isMouseDown)`;
computes the raw deltas `dY`/`dX` from the stored origin, sets the trend
flags by comparing the raw deltas against the PREVIOUS stored deltas,
then overwrites the stored deltas. -/
def onMouseMove (s : TrackState) (e : Event) : Option TrackState :=
  if s.isMouseDown then
    match getY e.pointer, getX e.pointer with
    | some y, some x =>
        let dY := y - s.lastY
        let dX := x - s.lastX
        some { s with goingDown := some (decide (dY > s.deltaY)),
                      goingRight := some (decide (dX > s.deltaX)),
                      deltaY := dY, deltaX := dX }
    | _, _ => none
  else some s

/-- Embeds the `onMouseUp` handler: reset `isMouseDown`, the deltas and
the trend flags; `touchedElement` and `lastX`/`lastY` are left alone. -/
def onMouseUp (s : TrackState) : TrackState :=
  { s with isMouseDown := false, deltaY := 0, deltaX := 0,
           goingDown := none, goingRight := none }

/-- Dispatches one event to the handler registered for its class,
independent of mode: `mousedown`/`touchstart` to `onMouseDown`,
`mousemove`/`touchmove` to `onMouseMove`, `mouseup`/`touchend` to
`onMouseUp`. -/
def handle (s : TrackState) (e : Event) : Option TrackState :=
  match e.kind with
  | .down => onMouseDown s e
  | .move => onMouseMove s e
  | .up => some (onMouseUp s)

/-- Whether the hook has a listener for this event's device class:
mouse listeners are added when `isDesktop`, touch listeners when
`isMobile`. -/
def subscribedTo (m : Mode) (p : Pointer) : Bool :=
  if isTouchEvent p then isMobile m else isDesktop m

/-- One step of the tracker: an event whose device class has no
listener leaves the state untouched; otherwise it is dispatched to the
shared handlers. -/
def step (m : Mode) (s : TrackState) (e : Event) : Option TrackState :=
  if subscribedTo m e.pointer then handle s e else some s

/-- Runs a list of events through the tracker, stopping with `none` if
some handler throws. -/
def run (m : Mode) (s : TrackState) : List Event → Option TrackState
  | [] => some s
  | e :: es =>
      match step m s e with
      | some s2 => run m s2 es
      | none => none

/-- The reachable states of the tracker: the initial state, closed
under successful steps. -/
inductive Reaches (m : Mode) : TrackState → Prop where
  | init : Reaches m initState
  | next {s s2 : TrackState} (e : Event) :
      Reaches m s → step m s e = some s2 → Reaches m s2

/-- The snapshot returned to consumers by the hook. -/
structure Snapshot where
  deltaY : Int
  deltaX : Int
  isMouseDown : Bool
  touchedElement : Option String
  goingDown : Option Bool
  goingRight : Option Bool
  deriving Repr, DecidableEq

/-- Builds the hook's return value from the state. -/
def snapshot (s : TrackState) : Snapshot :=
  { deltaY := s.deltaY, deltaX := s.deltaX, isMouseDown := s.isMouseDown,
    touchedElement := s.touchedElement, goingDown := s.goingDown,
    goingRight := s.goingRight }

/-- Rest-state consistency: while unpressed the deltas are zero and the
trend flags are unset. -/
def restInvariant (s : TrackState) : Prop :=
  s.isMouseDown = false →
    s.deltaX = 0 ∧ s.deltaY = 0 ∧ s.goingDown = none ∧ s.goingRight = none

/-- Sample pressed state: origin (0,0), previous move stored `deltaY = 50`
with a downward trend (the state after press at (0,0) and move to (0,50)). -/
def pressedSample : TrackState :=
  { lastY := 0, lastX := 0, deltaY := 50, deltaX := 0,
    goingDown := some true, goingRight := some false,
    isMouseDown := true, touchedElement := some "a" }

/-- Sample pressed state with origin (100,100) after a move to (120,115). -/
def pressedSampleB : TrackState :=
  { lastY := 100, lastX := 100, deltaY := 15, deltaX := 20,
    goingDown := some true, goingRight := some true,
    isMouseDown := true, touchedElement := some "a" }

/-- State produced from `pressedSampleB` by a move to (110,105). -/
def movedSampleB : TrackState :=
  { lastY := 100, lastX := 100, deltaY := 5, deltaX := 10,
    goingDown := some false, goingRight := some false,
    isMouseDown := true, touchedElement := some "a" }

/-- Touch-start at (50,50) on element "card". -/
def cardStart : Event := ⟨.down, .touch [⟨50, 50⟩] [], "card"⟩

/-- Touch-move to (50,0) on element "card". -/
def cardMove : Event := ⟨.move, .touch [⟨50, 0⟩] [], "card"⟩

/-- Touch-end with the ended contact in `changedTouches`. -/
def cardEnd : Event := ⟨.up, .touch [] [⟨50, 0⟩], "card"⟩

/-- Evaluation lemma for `onMouseDown` when both coordinates extract. -/
lemma onMouseDown_eq {s : TrackState} {e : Event} {x y : Int}
    (hy : getY e.pointer = some y) (hx : getX e.pointer = some x) :
    onMouseDown s e =
      some { s with isMouseDown := true, lastY := y, lastX := x,
                    touchedElement := some e.targetClassName } := by
  unfold onMouseDown
  rw [hy, hx]

/-- Evaluation lemma for `onMouseMove` while pressed. -/
lemma onMouseMove_eq {s : TrackState} {e : Event} {x y : Int}
    (hd : s.isMouseDown = true)
    (hy : getY e.pointer = some y) (hx : getX e.pointer = some x) :
    onMouseMove s e =
      some { s with goingDown := some (decide (y - s.lastY > s.deltaY)),
                    goingRight := some (decide (x - s.lastX > s.deltaX)),
                    deltaY := y - s.lastY, deltaX := x - s.lastX } := by
  unfold onMouseMove
  rw [hd, hy, hx]
  simp

/-- A successful `onMouseDown` leaves the state pressed and changes only
the origin, `touchedElement` and `isMouseDown`. -/
lemma onMouseDown_some {s s2 : TrackState} {e : Event}
    (h : onMouseDown s e = some s2) :
    s2.isMouseDown = true ∧ s2.deltaX = s.deltaX ∧ s2.deltaY = s.deltaY ∧
    s2.goingDown = s.goingDown ∧ s2.goingRight = s.goingRight ∧
    s2.touchedElement = some e.targetClassName := by
  unfold onMouseDown at h
  cases hY : getY e.pointer <;> cases hX : getX e.pointer <;> rw [hY, hX] at h <;>
    simp at h
  rw [← h]
  exact ⟨rfl, rfl, rfl, rfl, rfl, rfl⟩

lemma restInvariant_initState : restInvariant initState :=
  fun _ => ⟨rfl, rfl, rfl, rfl⟩

/-- A move while unpressed is the identity. -/
lemma onMouseMove_not_pressed {s : TrackState} {e : Event}
    (hd : s.isMouseDown = false) : onMouseMove s e = some s := by
  unfold onMouseMove
  rw [hd]
  simp

/-- A successful move leaves `isMouseDown`, the origin and
`touchedElement` unchanged. -/
lemma onMouseMove_some {s s2 : TrackState} {e : Event}
    (h : onMouseMove s e = some s2) :
    s2.isMouseDown = s.isMouseDown ∧ s2.lastX = s.lastX ∧
    s2.lastY = s.lastY ∧ s2.touchedElement = s.touchedElement := by
  unfold onMouseMove at h
  by_cases hd : s.isMouseDown = true
  · rw [hd] at h
    simp only [if_true] at h
    cases hY : getY e.pointer <;> cases hX : getX e.pointer <;> rw [hY, hX] at h <;>
      simp at h
    rw [← h, hd]
    exact ⟨rfl, rfl, rfl, rfl⟩
  · rw [Bool.not_eq_true] at hd
    rw [hd] at h
    simp only [Bool.false_eq_true, if_false, Option.some_inj] at h
    rw [← h]
    exact ⟨rfl, rfl, rfl, rfl⟩

/-- Every successful step preserves the rest-state consistency. -/
lemma restInvariant_step {m : Mode} {s s2 : TrackState} {e : Event}
    (h : restInvariant s) (hs : step m s e = some s2) : restInvariant s2 := by
  unfold step at hs
  by_cases hsub : subscribedTo m e.pointer = true
  · rw [if_pos hsub] at hs
    unfold handle at hs
    cases hk : e.kind <;> rw [hk] at hs
    · intro hfalse
      exact absurd ((onMouseDown_some hs).1) (by rw [hfalse]; exact Bool.false_ne_true)
    · by_cases hd : s.isMouseDown = true
      · intro hfalse
        exact absurd ((onMouseMove_some hs).1.trans hd) (by rw [hfalse]; exact Bool.false_ne_true)
      · rw [Bool.not_eq_true] at hd
        rw [onMouseMove_not_pressed hd, Option.some_inj] at hs
        rw [← hs]
        exact h
    · rw [Option.some_inj] at hs
      rw [← hs]
      intro _
      exact ⟨rfl, rfl, rfl, rfl⟩
  · rw [if_neg hsub, Option.some_inj] at hs
    rw [← hs]
    exact h

/-- Every reachable state satisfies the rest-state consistency. -/
lemma reaches_restInvariant {m : Mode} {s : TrackState}
    (h : Reaches m s) : restInvariant s := by
  induction h with
  | init => exact restInvariant_initState
  | next e _ hs ih => exact restInvariant_step ih hs

/-- Claim C1: on every move while pressed, the trend flags compare the
fresh raw deltas against the previously stored deltas before those are
overwritten; in particular press (0,0), move (0,50) gives `deltaY = 50`,
`goingDown = true`, and a further move (0,30) gives `deltaY = 30`,
`goingDown = false`, with `deltaY` still positive. -/
theorem c1_trend_compare_then_overwrite :
    (∀ (s : TrackState) (e : Event) (x y : Int),
        s.isMouseDown = true → getY e.pointer = some y →
        getX e.pointer = some x →
        onMouseMove s e =
          some { s with goingDown := some (decide (y - s.lastY > s.deltaY)),
                        goingRight := some (decide (x - s.lastX > s.deltaX)),
                        deltaY := y - s.lastY, deltaX := x - s.lastX })
    ∧ (run Mode.both initState
        [⟨.down, .mouse 0 0, "a"⟩, ⟨.move, .mouse 0 50, "a"⟩]).map
        (fun s => (s.deltaY, s.goingDown)) = some (50, some true)
    ∧ (run Mode.both initState
        [⟨.down, .mouse 0 0, "a"⟩, ⟨.move, .mouse 0 50, "a"⟩,
         ⟨.move, .mouse 0 30, "a"⟩]).map
        (fun s => (s.deltaY, s.goingDown, decide (0 < s.deltaY))) =
        some (30, some false, true) :=
  ⟨fun _ _ _ _ hd hy hx => onMouseMove_eq hd hy hx, by decide, by decide⟩

/-- Witness for C1 at the state after press (0,0) and move (0,50): the
move to (0,30) compares 30 against the stored 50. -/
theorem c1_trend_compare_then_overwrite_witness :
    pressedSample.isMouseDown = true ∧
    getY (Pointer.mouse 0 30) = some 30 ∧
    getX (Pointer.mouse 0 30) = some 0 ∧
    onMouseMove pressedSample ⟨.move, .mouse 0 30, "a"⟩ =
      some { pressedSample with
             goingDown := some (decide ((30:Int) - pressedSample.lastY >
               pressedSample.deltaY)),
             goingRight := some (decide ((0:Int) - pressedSample.lastX >
               pressedSample.deltaX)),
             deltaY := 30 - pressedSample.lastY,
             deltaX := 0 - pressedSample.lastX } :=
  ⟨rfl, rfl, rfl,
   c1_trend_compare_then_overwrite.1 pressedSample
     ⟨.move, .mouse 0 30, "a"⟩ 0 30 rfl rfl rfl⟩

/-- Claim C2: every move while pressed recomputes the deltas from the
stored press origin, moves and releases never write the origin; in
particular press (100,100), move (120,115), move (110,105) ends with
`deltaX = 10`, `deltaY = 5`. -/
theorem c2_delta_from_origin :
    (∀ (s s2 : TrackState) (e : Event) (x y : Int),
        s.isMouseDown = true → getY e.pointer = some y →
        getX e.pointer = some x → onMouseMove s e = some s2 →
        s2.deltaX = x - s.lastX ∧ s2.deltaY = y - s.lastY ∧
        s2.lastX = s.lastX ∧ s2.lastY = s.lastY)
    ∧ (∀ (s s2 : TrackState) (e : Event), onMouseMove s e = some s2 →
        s2.lastX = s.lastX ∧ s2.lastY = s.lastY)
    ∧ (∀ s : TrackState,
        (onMouseUp s).lastX = s.lastX ∧ (onMouseUp s).lastY = s.lastY)
    ∧ (run Mode.both initState
        [⟨.down, .mouse 100 100, "a"⟩, ⟨.move, .mouse 120 115, "a"⟩,
         ⟨.move, .mouse 110 105, "a"⟩]).map
        (fun s => (s.deltaX, s.deltaY)) = some (10, 5) := by
  refine ⟨?_, ?_, fun s => ⟨rfl, rfl⟩, by decide⟩
  · intro s s2 e x y hd hy hx h
    rw [onMouseMove_eq hd hy hx, Option.some_inj] at h
    rw [← h]
    exact ⟨rfl, rfl, rfl, rfl⟩
  · intro s s2 e h
    have h2 := onMouseMove_some h
    exact ⟨h2.2.1, h2.2.2.1⟩

/-- Witness for C2 at the state after press (100,100) and move
(120,115): the move to (110,105) yields deltas 10 and 5 from the
unchanged origin. -/
theorem c2_delta_from_origin_witness :
    pressedSampleB.isMouseDown = true ∧
    getY (Pointer.mouse 110 105) = some 105 ∧
    getX (Pointer.mouse 110 105) = some 110 ∧
    onMouseMove pressedSampleB ⟨.move, .mouse 110 105, "a"⟩ =
      some movedSampleB ∧
    (movedSampleB.deltaX = 110 - pressedSampleB.lastX ∧
     movedSampleB.deltaY = 105 - pressedSampleB.lastY ∧
     movedSampleB.lastX = pressedSampleB.lastX ∧
     movedSampleB.lastY = pressedSampleB.lastY) :=
  ⟨rfl, rfl, rfl, by decide,
   c2_delta_from_origin.1 pressedSampleB movedSampleB
     ⟨.move, .mouse 110 105, "a"⟩ 110 105 rfl rfl rfl (by decide)⟩

/-- Claim C3: in every reachable state that is unpressed the deltas are
zero and the trend flags unset; moreover every release produces a state
with `isMouseDown = false`, zero deltas and unset trend flags. -/
theorem c3_rest_state (m : Mode) (s : TrackState) (h : Reaches m s) :
    (s.isMouseDown = false →
      s.deltaX = 0 ∧ s.deltaY = 0 ∧ s.goingDown = none ∧ s.goingRight = none)
    ∧ ((onMouseUp s).isMouseDown = false ∧ (onMouseUp s).deltaX = 0 ∧
       (onMouseUp s).deltaY = 0 ∧ (onMouseUp s).goingDown = none ∧
       (onMouseUp s).goingRight = none) :=
  ⟨reaches_restInvariant h, rfl, rfl, rfl, rfl, rfl⟩

/-- Witness for C3 at the state reached by press (0,0), move (0,50),
release. -/
theorem c3_rest_state_witness :
    Reaches Mode.both
      { lastY := 0, lastX := 0, deltaY := 0, deltaX := 0,
        goingDown := none, goingRight := none,
        isMouseDown := false, touchedElement := some "a" } ∧
    (({ lastY := 0, lastX := 0, deltaY := 0, deltaX := 0,
        goingDown := none, goingRight := none,
        isMouseDown := false, touchedElement := some "a" } : TrackState).isMouseDown
        = false →
      ({ lastY := 0, lastX := 0, deltaY := 0, deltaX := 0,
         goingDown := none, goingRight := none,
         isMouseDown := false, touchedElement := some "a" } : TrackState).deltaX = 0 ∧
      ({ lastY := 0, lastX := 0, deltaY := 0, deltaX := 0,
         goingDown := none, goingRight := none,
         isMouseDown := false, touchedElement := some "a" } : TrackState).deltaY = 0 ∧
      ({ lastY := 0, lastX := 0, deltaY := 0, deltaX := 0,
         goingDown := none, goingRight := none,
         isMouseDown := false, touchedElement := some "a" } : TrackState).goingDown = none ∧
      ({ lastY := 0, lastX := 0, deltaY := 0, deltaX := 0,
         goingDown := none, goingRight := none,
         isMouseDown := false, touchedElement := some "a" } : TrackState).goingRight = none) := by
  have h1 : Reaches Mode.both
      { lastY := 0, lastX := 0, deltaY := 0, deltaX := 0,
        goingDown := none, goingRight := none,
        isMouseDown := true, touchedElement := some "a" } :=
    Reaches.next ⟨.down, .mouse 0 0, "a"⟩ Reaches.init (by decide)
  have h2 : Reaches Mode.both
      { lastY := 0, lastX := 0, deltaY := 50, deltaX := 0,
        goingDown := some true, goingRight := some false,
        isMouseDown := true, touchedElement := some "a" } :=
    Reaches.next ⟨.move, .mouse 0 50, "a"⟩ h1 (by decide)
  have h3 : Reaches Mode.both
      { lastY := 0, lastX := 0, deltaY := 0, deltaX := 0,
        goingDown := none, goingRight := none,
        isMouseDown := false, touchedElement := some "a" } :=
    Reaches.next ⟨.up, .mouse 0 50, "a"⟩ h2 (by decide)
  exact ⟨h3, (c3_rest_state Mode.both _ h3).1⟩

/-- Claim C5: a move event delivered while unpressed leaves the state
exactly unchanged, whatever the mode and the event payload. -/
theorem c5_move_unpressed_noop (m : Mode) (s : TrackState) (e : Event)
    (hk : e.kind = EventKind.move) (hd : s.isMouseDown = false) :
    step m s e = some s := by
  unfold step
  by_cases hsub : subscribedTo m e.pointer = true
  · rw [if_pos hsub]
    unfold handle
    rw [hk]
    exact onMouseMove_not_pressed hd
  · rw [if_neg hsub]

/-- Witness for C5: a stray mouse move after release, on a state with a
stale origin and `touchedElement`, changes nothing. -/
theorem c5_move_unpressed_noop_witness :
    (⟨EventKind.move, Pointer.mouse 7 9, "b"⟩ : Event).kind = EventKind.move ∧
    ({ lastY := 3, lastX := 4, deltaY := 0, deltaX := 0,
       goingDown := none, goingRight := none,
       isMouseDown := false, touchedElement := some "a" } : TrackState).isMouseDown
      = false ∧
    step Mode.both
      { lastY := 3, lastX := 4, deltaY := 0, deltaX := 0,
        goingDown := none, goingRight := none,
        isMouseDown := false, touchedElement := some "a" }
      ⟨EventKind.move, Pointer.mouse 7 9, "b"⟩ =
      some { lastY := 3, lastX := 4, deltaY := 0, deltaX := 0,
             goingDown := none, goingRight := none,
             isMouseDown := false, touchedElement := some "a" } :=
  ⟨rfl, rfl,
   c5_move_unpressed_noop Mode.both
     { lastY := 3, lastX := 4, deltaY := 0, deltaX := 0,
       goingDown := none, goingRight := none,
       isMouseDown := false, touchedElement := some "a" }
     ⟨EventKind.move, Pointer.mouse 7 9, "b"⟩ rfl rfl⟩

/-- Counterexample to claim C4 as stated: after touch-start at (50,50)
and touch-move to (50,0) in mode `both`, the hook reports
`goingDown = false` (the raw delta -50 is not greater than the stored 0),
not `goingDown = true` as claimed. -/
theorem c4_scenario_counterexample :
    (run Mode.both initState [cardStart, cardMove]).map
      (fun s => s.goingDown) = some (some false) ∧
    ¬ ((run Mode.both initState [cardStart, cardMove]).map
      (fun s => s.goingDown) = some (some true)) := by decide

/-- Claim C4 amended: the same scenario, with the second snapshot
carrying `goingDown = false` (moving from y = 50 to y = 0 is upward, and
-50 > 0 is false) instead of the claimed `goingDown = true`. -/
theorem c4_scenario_amended :
    (run Mode.both initState [cardStart]).map snapshot =
      some { deltaY := 0, deltaX := 0, isMouseDown := true,
             touchedElement := some "card",
             goingDown := none, goingRight := none } ∧
    (run Mode.both initState [cardStart, cardMove]).map snapshot =
      some { deltaY := -50, deltaX := 0, isMouseDown := true,
             touchedElement := some "card",
             goingDown := some false, goingRight := some false } ∧
    (run Mode.both initState [cardStart, cardMove, cardEnd]).map snapshot =
      some { deltaY := 0, deltaX := 0, isMouseDown := false,
             touchedElement := some "card",
             goingDown := none, goingRight := none } := by decide

/-- Claim C6: a press delivered in a reachable unpressed state sets
`isMouseDown`, the origin and `touchedElement`, and the resulting state
has zero deltas and unset trend flags (the press itself writes neither
deltas nor trends). -/
theorem c6_press_at_rest (m : Mode) (s : TrackState) (e : Event)
    (x y : Int) (hr : Reaches m s) (hd : s.isMouseDown = false)
    (hy : getY e.pointer = some y) (hx : getX e.pointer = some x) :
    onMouseDown s e =
      some { s with isMouseDown := true, lastY := y, lastX := x,
                    touchedElement := some e.targetClassName }
    ∧ ∀ s2, onMouseDown s e = some s2 →
        s2.deltaX = 0 ∧ s2.deltaY = 0 ∧ s2.isMouseDown = true ∧
        s2.touchedElement = some e.targetClassName ∧
        s2.goingDown = none ∧ s2.goingRight = none := by
  obtain ⟨hdx, hdy, hgd, hgr⟩ := reaches_restInvariant hr hd
  refine ⟨onMouseDown_eq hy hx, fun s2 h2 => ?_⟩
  obtain ⟨hb, hx2, hy2, hg2, hr2, ht2⟩ := onMouseDown_some h2
  exact ⟨hx2.trans hdx, hy2.trans hdy, hb, ht2, hg2.trans hgd, hr2.trans hgr⟩

/-- Witness for C6: press at (3,4) on element "card" from the initial
state. -/
theorem c6_press_at_rest_witness :
    Reaches Mode.both initState ∧ initState.isMouseDown = false ∧
    getY (Pointer.mouse 3 4) = some 4 ∧ getX (Pointer.mouse 3 4) = some 3 ∧
    (onMouseDown initState ⟨.down, .mouse 3 4, "card"⟩ =
      some { initState with isMouseDown := true, lastY := 4, lastX := 3,
                            touchedElement := some "card" }
     ∧ ∀ s2, onMouseDown initState ⟨.down, .mouse 3 4, "card"⟩ = some s2 →
        s2.deltaX = 0 ∧ s2.deltaY = 0 ∧ s2.isMouseDown = true ∧
        s2.touchedElement = some "card" ∧
        s2.goingDown = none ∧ s2.goingRight = none) :=
  ⟨Reaches.init, rfl, rfl, rfl,
   c6_press_at_rest Mode.both initState ⟨.down, .mouse 3 4, "card"⟩ 3 4
     Reaches.init rfl rfl rfl⟩

/-- Claim C7: a release resets `isMouseDown`, the deltas and the trend
flags, and leaves `touchedElement` and the stored origin untouched. -/
theorem c7_release_keeps_touchedElement (s : TrackState) :
    onMouseUp s =
      { s with isMouseDown := false, deltaY := 0, deltaX := 0,
               goingDown := none, goingRight := none }
    ∧ (onMouseUp s).touchedElement = s.touchedElement
    ∧ (onMouseUp s).lastX = s.lastX ∧ (onMouseUp s).lastY = s.lastY :=
  ⟨rfl, rfl, rfl, rfl⟩

/-- Claim C8: in mode `mouse` a touch-class event leaves the state
unchanged, in mode `touch` a mouse-class event leaves the state
unchanged, and in mode `both` every event goes through the shared
handlers. -/
theorem c8_mode_isolation :
    (∀ (s : TrackState) (e : Event), isTouchEvent e.pointer = true →
        step Mode.mouse s e = some s)
    ∧ (∀ (s : TrackState) (e : Event), isTouchEvent e.pointer = false →
        step Mode.touch s e = some s)
    ∧ (∀ (s : TrackState) (e : Event), step Mode.both s e = handle s e) := by
  refine ⟨?_, ?_, ?_⟩
  · intro s e ht
    unfold step subscribedTo
    rw [ht]
    simp [isMobile]
  · intro s e ht
    unfold step subscribedTo
    rw [ht]
    simp [isDesktop]
  · intro s e
    unfold step subscribedTo
    cases hp : isTouchEvent e.pointer <;> simp [isMobile, isDesktop]

/-- Witness for C8: in mode `mouse` a touch-start that would press the
tracker leaves the initial state unchanged. -/
theorem c8_mode_isolation_witness :
    isTouchEvent (Pointer.touch [⟨1, 2⟩] []) = true ∧
    step Mode.mouse initState ⟨.down, .touch [⟨1, 2⟩] [], "card"⟩ =
      some initState :=
  ⟨rfl, c8_mode_isolation.1 initState ⟨.down, .touch [⟨1, 2⟩] [], "card"⟩ rfl⟩

/-- Claim C9: coordinate extraction prefers the first active touch,
falls back to the first changed touch, is defined whenever one of the
two lists is non-empty, and returns the viewport coordinates directly
for mouse-class events. -/
theorem c9_extraction_total :
    (∀ ts cts : List Touch, ts ≠ [] ∨ cts ≠ [] →
        (getY (Pointer.touch ts cts)).isSome = true ∧
        (getX (Pointer.touch ts cts)).isSome = true)
    ∧ (∀ (t : Touch) (ts cts : List Touch),
        getY (Pointer.touch (t :: ts) cts) = some t.clientY ∧
        getX (Pointer.touch (t :: ts) cts) = some t.clientX)
    ∧ (∀ (t : Touch) (cts : List Touch),
        getY (Pointer.touch [] (t :: cts)) = some t.clientY ∧
        getX (Pointer.touch [] (t :: cts)) = some t.clientX)
    ∧ (∀ x y : Int,
        getY (Pointer.mouse x y) = some y ∧
        getX (Pointer.mouse x y) = some x) := by
  refine ⟨?_, fun t ts cts => ⟨rfl, rfl⟩, fun t cts => ⟨rfl, rfl⟩,
          fun x y => ⟨rfl, rfl⟩⟩
  intro ts cts h
  cases ts with
  | cons t ts => exact ⟨rfl, rfl⟩
  | nil =>
    cases cts with
    | cons t cts => exact ⟨rfl, rfl⟩
    | nil =>
      cases h with
      | inl h => exact absurd rfl h
      | inr h => exact absurd rfl h

/-- Witness for C9: a touch-end whose active list is empty still
extracts from the changed list. -/
theorem c9_extraction_total_witness :
    (([] : List Touch) ≠ [] ∨ ([⟨5, 6⟩] : List Touch) ≠ []) ∧
    (getY (Pointer.touch [] [⟨5, 6⟩])).isSome = true ∧
    (getX (Pointer.touch [] [⟨5, 6⟩])).isSome = true :=
  ⟨Or.inr (by decide),
   (c9_extraction_total.1 [] [⟨5, 6⟩] (Or.inr (by decide))).1,
   (c9_extraction_total.1 [] [⟨5, 6⟩] (Or.inr (by decide))).2⟩

/-- Claim C10: a press while already pressed rewrites the origin and
`touchedElement` and keeps `isMouseDown`, but carries the previous
deltas and trend flags over unchanged. -/
theorem c10_press_while_pressed (s : TrackState) (e : Event) (x y : Int)
    (hd : s.isMouseDown = true)
    (hy : getY e.pointer = some y) (hx : getX e.pointer = some x) :
    onMouseDown s e =
      some { s with isMouseDown := true, lastY := y, lastX := x,
                    touchedElement := some e.targetClassName }
    ∧ ∀ s2, onMouseDown s e = some s2 →
        s2.isMouseDown = true ∧ s2.lastX = x ∧ s2.lastY = y ∧
        s2.touchedElement = some e.targetClassName ∧
        s2.deltaX = s.deltaX ∧ s2.deltaY = s.deltaY ∧
        s2.goingDown = s.goingDown ∧ s2.goingRight = s.goingRight := by
  refine ⟨onMouseDown_eq hy hx, fun s2 h2 => ?_⟩
  rw [onMouseDown_eq hy hx, Option.some_inj] at h2
  rw [← h2]
  exact ⟨hd ▸ rfl, rfl, rfl, rfl, rfl, rfl, rfl, rfl⟩

/-- Witness for C10: a second press at (5,7) on `pressedSample` keeps
the stale `deltaY = 50` and `goingDown = true` of the earlier gesture. -/
theorem c10_press_while_pressed_witness :
    pressedSample.isMouseDown = true ∧
    getY (Pointer.mouse 5 7) = some 7 ∧ getX (Pointer.mouse 5 7) = some 5 ∧
    (onMouseDown pressedSample ⟨.down, .mouse 5 7, "b"⟩ =
      some { pressedSample with isMouseDown := true, lastY := 7, lastX := 5,
                                touchedElement := some "b" }
     ∧ ∀ s2, onMouseDown pressedSample ⟨.down, .mouse 5 7, "b"⟩ = some s2 →
        s2.isMouseDown = true ∧ s2.lastX = 5 ∧ s2.lastY = 7 ∧
        s2.touchedElement = some "b" ∧
        s2.deltaX = pressedSample.deltaX ∧ s2.deltaY = pressedSample.deltaY ∧
        s2.goingDown = pressedSample.goingDown ∧
        s2.goingRight = pressedSample.goingRight) :=
  ⟨rfl, rfl, rfl,
   c10_press_while_pressed pressedSample ⟨.down, .mouse 5 7, "b"⟩ 5 7
     rfl rfl rfl⟩

end UseMouseDelta
